import Mathlib

/-!
Verification development for the restic-manager orchestration engine.

Shallow embedding of the core components:
* configuration resolution (`src/config/loader.rs`, `src/config/types.rs`)
* the per-service backup coordinator (`src/managers/backup.rs`)
* restic helpers (`src/utils/restic.rs`)
* the notification gate (`src/managers/notification.rs`)
* the per-service backup lock (`src/utils/locker.rs`)

Rust integers (`u32`/`u64`) are embedded as `Nat`; all uses here are
counts and timestamps far below the overflow range, and the one
subtraction the source performs (`now - entry.last_sent`, in
`is_rate_limited`) is only reached with `last_sent <= now` in every
property below, where `Nat` subtraction and `u64` subtraction agree.
Maps (`HashMap`) are embedded as association lists with `List.lookup`.
External effects (subprocesses, the filesystem, the webhook transport,
wall-clock readings) are supplied by explicit oracle structures, one
outcome per call site, so the control flow of the source is reproduced
exactly while the environment stays a parameter.
-/

namespace ResticManager

/-! ## Data model (`src/config/types.rs`) -/

inductive NotifyEvent
  | Failure
  | Warning
  | LongRunning
  | Success
  deriving DecidableEq, Repr

/-- `format!("{:?}", event)` on `NotifyEvent` (used for cache keys). -/
def NotifyEvent.debugStr : NotifyEvent → String
  | .Failure => "Failure"
  | .Warning => "Warning"
  | .LongRunning => "LongRunning"
  | .Success => "Success"

/-- `GlobalConfig` (types.rs); the logging-only fields are omitted as no
claim mentions them. Paths are embedded as strings. -/
structure GlobalConfig where
  restic_password_file : String
  docker_base : String
  retention_daily : Nat
  retention_weekly : Nat
  retention_monthly : Nat
  retention_yearly : Nat
  default_timeout_seconds : Nat
  long_running_threshold_minutes : Nat
  default_excludes : List String
  use_system_restic : Bool
  deriving DecidableEq, Repr

inductive DestinationType
  | Sftp
  | Local
  | S3
  | B2
  deriving DecidableEq, Repr

/-- `Destination` (types.rs). The URL is embedded as its character
sequence because `build_repository_url` inspects individual characters. -/
structure Destination where
  dest_type : DestinationType
  url : List Char
  description : String
  deriving DecidableEq, Repr

structure NotificationConfig where
  discord_webhook_url : String
  notify_on : List NotifyEvent
  rate_limit_minutes : Nat
  cache_file : String
  deriving DecidableEq, Repr

structure Profile where
  targets : List String
  retention_daily : Option Nat
  retention_weekly : Option Nat
  retention_monthly : Option Nat
  retention_yearly : Option Nat
  timeout_seconds : Option Nat
  notify_on : List NotifyEvent
  deriving DecidableEq, Repr

structure Hook where
  name : String
  command : String
  working_dir : Option String
  timeout_seconds : Option Nat
  continue_on_error : Bool
  deriving DecidableEq, Repr

structure BackupConfig where
  paths : List String
  volumes : List String
  excludes : List String
  pre_backup_hooks : List Hook
  post_backup_hooks : List Hook
  deriving DecidableEq, Repr

structure ServiceConfig where
  enabled : Bool
  profile : Option String
  description : String
  schedule : String
  targets : List String
  timeout_seconds : Option Nat
  retention_daily : Option Nat
  retention_weekly : Option Nat
  retention_monthly : Option Nat
  retention_yearly : Option Nat
  notify_on : List NotifyEvent
  config : Option BackupConfig
  deriving DecidableEq, Repr

structure RetentionPolicy where
  daily : Nat
  weekly : Nat
  monthly : Nat
  yearly : Nat
  deriving DecidableEq, Repr

structure ResolvedServiceConfig where
  name : String
  enabled : Bool
  description : String
  schedule : String
  targets : List String
  timeout_seconds : Nat
  retention : RetentionPolicy
  notify_on : List NotifyEvent
  config : Option BackupConfig
  deriving DecidableEq, Repr

/-- `Config` (types.rs); the `HashMap`s become association lists. -/
structure Config where
  global : GlobalConfig
  destinations : List (String × Destination)
  notifications : NotificationConfig
  profiles : List (String × Profile)
  services : List (String × ServiceConfig)
  deriving DecidableEq, Repr

/-! ## Configuration resolution (`src/config/loader.rs`) -/

/-- `ConfigError` (loader.rs). `ReadError`/`ParseError` wrap I/O and
TOML errors; their payloads are embedded as their rendered messages. -/
inductive ConfigError
  | ReadError (msg : String)
  | ParseError (msg : String)
  | ValidationError (msg : String)
  | ProfileNotFound (name : String)
  | DestinationNotFound (name : String)
  deriving DecidableEq, Repr

/-- The profile actually used by `resolve_service` (loader.rs:115-118):
a named but absent profile silently resolves to `none` here. -/
def effectiveProfile (service : ServiceConfig) (config : Config) : Option Profile :=
  service.profile.bind fun p => config.profiles.lookup p

/-- Target resolution (service > profile > error), loader.rs:121-130. -/
def resolveTargets (name : String) (service : ServiceConfig) (config : Config) :
    Except ConfigError (List String) :=
  if !service.targets.isEmpty then Except.ok service.targets
  else
    match effectiveProfile service config with
    | some p => Except.ok p.targets
    | none =>
        Except.error (ConfigError.ValidationError
          ("Service '" ++ name ++ "' has no targets defined and no profile"))

/-- The `ResolvedServiceConfig` built at loader.rs:171-181, with the
timeout (loader.rs:132-136), retention (loader.rs:138-156) and
notify_on (loader.rs:158-169) chains inlined. -/
def resolvedRecord (name : String) (service : ServiceConfig) (config : Config)
    (targets : List String) : ResolvedServiceConfig :=
  let profile := effectiveProfile service config
  { name := name
    enabled := service.enabled
    description := service.description
    schedule := service.schedule
    targets := targets
    timeout_seconds :=
      ((service.timeout_seconds).orElse fun _ =>
        profile.bind fun p => p.timeout_seconds).getD config.global.default_timeout_seconds
    retention :=
      { daily :=
          ((service.retention_daily).orElse fun _ =>
            profile.bind fun p => p.retention_daily).getD config.global.retention_daily
        weekly :=
          ((service.retention_weekly).orElse fun _ =>
            profile.bind fun p => p.retention_weekly).getD config.global.retention_weekly
        monthly :=
          ((service.retention_monthly).orElse fun _ =>
            profile.bind fun p => p.retention_monthly).getD config.global.retention_monthly
        yearly :=
          ((service.retention_yearly).orElse fun _ =>
            profile.bind fun p => p.retention_yearly).getD config.global.retention_yearly }
    notify_on :=
      if !service.notify_on.isEmpty then service.notify_on
      else
        match profile with
        | some p =>
            if !p.notify_on.isEmpty then p.notify_on else config.notifications.notify_on
        | none => config.notifications.notify_on
    config := service.config }

/-- `resolve_service` (loader.rs:109-182): target resolution is the
only fallible step; every other field is resolved by a total chain. -/
def resolve_service (name : String) (service : ServiceConfig) (config : Config) :
    Except ConfigError ResolvedServiceConfig :=
  match resolveTargets name service config with
  | Except.error e => Except.error e
  | Except.ok targets => Except.ok (resolvedRecord name service config targets)

/-- The three-tier precedence chain stated by the spec: the service
value if set, else the profile value if set, else the global default. -/
def specThreeTierChain (serviceVal profileVal : Option Nat) (globalVal : Nat) : Nat :=
  match serviceVal with
  | some v => v
  | none =>
      match profileVal with
      | some v => v
      | none => globalVal

lemma orElse_getD_eq_chain (s p : Option Nat) (g : Nat) :
    (s.orElse fun _ => p).getD g = specThreeTierChain s p g := by
  cases s <;> cases p <;> rfl

lemma resolve_service_ok_of_targets (name : String) (service : ServiceConfig)
    (config : Config) (targets : List String)
    (h : resolveTargets name service config = Except.ok targets) :
    resolve_service name service config =
      Except.ok (resolvedRecord name service config targets) := by
  unfold resolve_service
  rw [h]

lemma resolve_service_error_of_no_targets (name : String) (service : ServiceConfig)
    (config : Config) (h1 : service.targets = [])
    (h2 : effectiveProfile service config = none) :
    resolve_service name service config =
      Except.error (ConfigError.ValidationError
        ("Service '" ++ name ++ "' has no targets defined and no profile")) := by
  unfold resolve_service resolveTargets
  rw [h1, h2]
  rfl

lemma resolve_service_error_of_targets (name : String) (service : ServiceConfig)
    (config : Config) (e : ConfigError)
    (h : resolveTargets name service config = Except.error e) :
    resolve_service name service config = Except.error e := by
  unfold resolve_service
  rw [h]

lemma resolve_service_isOk (name : String) (service : ServiceConfig) (config : Config) :
    (resolve_service name service config).isOk =
      (!service.targets.isEmpty || (effectiveProfile service config).isSome) := by
  unfold resolve_service resolveTargets
  cases hT : service.targets.isEmpty <;> cases hP : effectiveProfile service config <;>
    simp [hT, hP, Except.isOk, Except.toBool]

/-! ## Claim C1 -/

/- Concrete fixture: a service with an empty target list that names an
existing profile whose target list is also empty. -/

def c1Global : GlobalConfig :=
  { restic_password_file := "/tmp/pw"
    docker_base := "/docker"
    retention_daily := 7
    retention_weekly := 4
    retention_monthly := 6
    retention_yearly := 0
    default_timeout_seconds := 3600
    long_running_threshold_minutes := 120
    default_excludes := []
    use_system_restic := false }

def c1Notifications : NotificationConfig :=
  { discord_webhook_url := ""
    notify_on := [NotifyEvent.Failure, NotifyEvent.Warning]
    rate_limit_minutes := 60
    cache_file := "/tmp/cache.json" }

def c1EmptyProfile : Profile :=
  { targets := []
    retention_daily := none
    retention_weekly := none
    retention_monthly := none
    retention_yearly := none
    timeout_seconds := none
    notify_on := [] }

def c1Service : ServiceConfig :=
  { enabled := true
    profile := some "p"
    description := ""
    schedule := "0 2 * * *"
    targets := []
    timeout_seconds := none
    retention_daily := none
    retention_weekly := none
    retention_monthly := none
    retention_yearly := none
    notify_on := []
    config := none }

def c1Config : Config :=
  { global := c1Global
    destinations := [("local", { dest_type := DestinationType.Local, url := "/tmp/backups".data, description := "" })]
    notifications := c1Notifications
    profiles := [("p", c1EmptyProfile)]
    services := [("svc", c1Service)] }

/-- C1 counterexample: the claim says that a service whose own target
list is empty and whose named profile also has an empty target list must
fail to resolve. On the code (loader.rs:121-130) a named profile that is
found is taken even when its target list is empty, so resolution
succeeds and produces a policy with zero targets. -/
theorem C1_counterexample :
    c1Service.targets = [] ∧
      (c1Config.profiles.lookup "p").map Profile.targets = some [] ∧
      (resolve_service "svc" c1Service c1Config).toOption.map ResolvedServiceConfig.targets =
        some [] :=
  ⟨rfl, rfl, rfl⟩

/-- C1 (amended): `resolve_service` fails — with
`ConfigError::ValidationError` (no `NoTargetsDefined` variant exists) —
exactly when the service's target list is empty and either no profile is
named or the named profile is absent from the profile map. When the
named profile exists, its target list is adopted even when empty, so a
successfully resolved policy has the service's targets if non-empty,
else the found profile's targets, which may be empty. -/
theorem C1_targets_resolution (name : String) (service : ServiceConfig) (config : Config) :
    (service.targets ≠ [] →
      ∃ r, resolve_service name service config = Except.ok r ∧ r.targets = service.targets)
    ∧ (∀ p, service.targets = [] → effectiveProfile service config = some p →
      ∃ r, resolve_service name service config = Except.ok r ∧ r.targets = p.targets)
    ∧ (service.targets = [] → effectiveProfile service config = none →
      resolve_service name service config =
        Except.error (ConfigError.ValidationError
          ("Service '" ++ name ++ "' has no targets defined and no profile"))) := by
  refine ⟨?_, ?_, ?_⟩
  · intro h
    have hne : service.targets.isEmpty = false := by
      simpa [List.isEmpty_iff] using h
    exact ⟨_, resolve_service_ok_of_targets name service config service.targets
      (by unfold resolveTargets; rw [hne]; rfl), rfl⟩
  · intro p h1 h2
    have hne : service.targets.isEmpty = true := by simp [h1]
    exact ⟨_, resolve_service_ok_of_targets name service config p.targets
      (by unfold resolveTargets; rw [hne, h2]; rfl), rfl⟩
  · intro h1 h2
    exact resolve_service_error_of_no_targets name service config h1 h2

/-- Witness for C1: the amended theorem applied at concrete inputs —
a service with its own target list, and a service with no targets and no
profile. -/
theorem C1_witness :
    (∃ r, resolve_service "svc" { c1Service with targets := ["local"], profile := none }
        c1Config = Except.ok r ∧
      r.targets = ({ c1Service with targets := ["local"], profile := none } : ServiceConfig).targets)
    ∧ resolve_service "svc" { c1Service with profile := none } c1Config =
        Except.error (ConfigError.ValidationError
          ("Service '" ++ "svc" ++ "' has no targets defined and no profile")) :=
  ⟨(C1_targets_resolution "svc" { c1Service with targets := ["local"], profile := none }
      c1Config).1 (by decide),
    (C1_targets_resolution "svc" { c1Service with profile := none } c1Config).2.2 rfl rfl⟩

/-! ## Claim C8 -/

/-- C8: each of the four retention counts is resolved independently
through the chain service value > profile value > global default
(loader.rs:139-156), and the retention fields never influence whether
resolution succeeds. -/
theorem C8_retention_three_tier (name : String) (service : ServiceConfig) (config : Config)
    (r : ResolvedServiceConfig) (h : resolve_service name service config = Except.ok r) :
    (r.retention.daily = specThreeTierChain service.retention_daily
        ((effectiveProfile service config).bind Profile.retention_daily)
        config.global.retention_daily)
    ∧ (r.retention.weekly = specThreeTierChain service.retention_weekly
        ((effectiveProfile service config).bind Profile.retention_weekly)
        config.global.retention_weekly)
    ∧ (r.retention.monthly = specThreeTierChain service.retention_monthly
        ((effectiveProfile service config).bind Profile.retention_monthly)
        config.global.retention_monthly)
    ∧ (r.retention.yearly = specThreeTierChain service.retention_yearly
        ((effectiveProfile service config).bind Profile.retention_yearly)
        config.global.retention_yearly)
    ∧ (∀ d w m y : Option Nat,
        (resolve_service name
          { service with
            retention_daily := d, retention_weekly := w,
            retention_monthly := m, retention_yearly := y } config).isOk =
        (resolve_service name service config).isOk) := by
  have hmod : ∀ d w m y : Option Nat,
      (resolve_service name
        { service with
          retention_daily := d, retention_weekly := w,
          retention_monthly := m, retention_yearly := y } config).isOk =
      (resolve_service name service config).isOk := by
    intro d w m y
    rw [resolve_service_isOk, resolve_service_isOk]
    rfl
  rcases hsplit : resolveTargets name service config with e | targets
  · rw [resolve_service_error_of_targets name service config e hsplit] at h
    exact absurd h (by simp)
  · rw [resolve_service_ok_of_targets name service config targets hsplit] at h
    simp only [Except.ok.injEq] at h
    subst h
    refine ⟨?_, ?_, ?_, ?_, hmod⟩ <;>
      simp [resolvedRecord, orElse_getD_eq_chain]

/- Concrete fixture for C8 matching the spec's example:
global.retention_daily = 7, profile.retention_daily = 14. -/

def c8Profile : Profile :=
  { targets := ["local"]
    retention_daily := some 14
    retention_weekly := none
    retention_monthly := none
    retention_yearly := none
    timeout_seconds := none
    notify_on := [] }

def c8Service : ServiceConfig :=
  { c1Service with profile := some "prof", retention_daily := none }

def c8Config : Config :=
  { c1Config with profiles := [("prof", c8Profile)] }

def c8Resolved : ResolvedServiceConfig :=
  { name := "svc"
    enabled := true
    description := ""
    schedule := "0 2 * * *"
    targets := ["local"]
    timeout_seconds := 3600
    retention := { daily := 14, weekly := 4, monthly := 6, yearly := 0 }
    notify_on := [NotifyEvent.Failure, NotifyEvent.Warning]
    config := none }

/-- Witness for C8: unset service value with profile 14 over global 7
resolves to 14, and a service value 3 wins over both. -/
theorem C8_witness :
    (resolve_service "svc" c8Service c8Config = Except.ok c8Resolved ∧
      c8Resolved.retention.daily =
        specThreeTierChain c8Service.retention_daily
          ((effectiveProfile c8Service c8Config).bind Profile.retention_daily)
          c8Config.global.retention_daily ∧
      c8Resolved.retention.daily = 14)
    ∧ (resolve_service "svc" { c8Service with retention_daily := some 3 } c8Config =
        Except.ok { c8Resolved with retention := { c8Resolved.retention with daily := 3 } } ∧
      ({ c8Resolved with retention := { c8Resolved.retention with daily := 3 } } :
          ResolvedServiceConfig).retention.daily =
        specThreeTierChain ({ c8Service with retention_daily := some 3 } :
            ServiceConfig).retention_daily
          ((effectiveProfile { c8Service with retention_daily := some 3 } c8Config).bind
            Profile.retention_daily)
          c8Config.global.retention_daily ∧
      ({ c8Resolved with retention := { c8Resolved.retention with daily := 3 } } :
          ResolvedServiceConfig).retention.daily = 3) :=
  ⟨⟨rfl, (C8_retention_three_tier "svc" c8Service c8Config c8Resolved rfl).1, rfl⟩,
    ⟨rfl, (C8_retention_three_tier "svc" { c8Service with retention_daily := some 3 } c8Config
      { c8Resolved with retention := { c8Resolved.retention with daily := 3 } } rfl).1, rfl⟩⟩

/-! ## Repository URL building (`src/utils/restic.rs:252-266`) -/

/-- The repository name (restic.rs:254-258): the service name, directly
concatenated with the suffix when one is given. URLs and names are
embedded as character sequences because this function inspects
individual characters. -/
def repoName (service_name : List Char) : Option (List Char) → List Char
  | some sfx => service_name ++ sfx
  | none => service_name

/-- `build_repository_url` (restic.rs:252-266): append the repository
name to the destination's base URL, inserting a '/' unless the URL
already ends with one (`ends_with('/')` is the last-character test). -/
def build_repository_url (destination : Destination) (service_name : List Char)
    (suffix : Option (List Char)) : List Char :=
  let base_url := destination.url
  let repo_name := repoName service_name suffix
  if base_url.getLast? = some '/' then base_url ++ repo_name
  else base_url ++ '/' :: repo_name

/-- The claim's reading of the join: the base URL and the repository
name separated by exactly one '/', whatever trailing slashes the base
already carries. -/
def joinWithSingleSlash (base repo : List Char) : List Char :=
  (base.reverse.dropWhile fun c => c == '/').reverse ++ '/' :: repo

/-- The base URL ends in two (or more) '/' characters. -/
def endsWithDoubleSlash (l : List Char) : Bool :=
  match l.reverse with
  | '/' :: '/' :: _ => true
  | _ => false

lemma join_eq_of_not_double (u repo : List Char) (h : endsWithDoubleSlash u = false) :
    (if u.getLast? = some '/' then u ++ repo else u ++ '/' :: repo) =
      (u.reverse.dropWhile fun c => c == '/').reverse ++ '/' :: repo := by
  rcases hrev : u.reverse with _ | ⟨c, r⟩
  case nil =>
    have h0 : u = [] := by
      have h1 := congrArg List.reverse hrev
      simpa using h1
    subst h0
    rfl
  case cons =>
    have hu2 : u = r.reverse ++ [c] := by
      have h1 := congrArg List.reverse hrev
      simpa using h1
    have hlast : u.getLast? = some c := by
      rw [hu2]
      exact List.getLast?_concat _
    by_cases hc : c = '/'
    case pos =>
      subst hc
      rw [if_pos hlast]
      unfold endsWithDoubleSlash at h
      rw [hrev] at h
      rcases r with _ | ⟨d, r2⟩
      case nil =>
        have h1 : u = ['/'] := by simpa using hu2
        subst h1
        rfl
      case cons =>
        have hdne : d ≠ '/' := by
          intro hdd
          subst hdd
          simp at h
        have hd : (d == '/') = false := beq_eq_false_iff_ne.mpr hdne
        simp only [List.dropWhile_cons, beq_self_eq_true, if_true, hd, Bool.false_eq_true,
          if_false]
        rw [hu2]
        simp
    case neg =>
      have hcb : (c == '/') = false := beq_eq_false_iff_ne.mpr hc
      have hne2 : ¬ u.getLast? = some '/' := by
        rw [hlast]
        intro h2
        exact hc (Option.some.inj h2)
      rw [if_neg hne2]
      simp only [List.dropWhile_cons, hcb, Bool.false_eq_true, if_false]
      rw [← hrev]
      simp

/-! ## Claim C10 -/

def c10Dest : Destination :=
  { dest_type := DestinationType.Sftp
    url := ['x', '/', '/']
    description := "" }

/-- C10 counterexample: for a base URL already ending in two slashes the
repository name is appended directly (restic.rs:261-262), so the join
keeps both slashes instead of exactly one. -/
theorem C10_counterexample :
    build_repository_url c10Dest ['s'] none = ['x', '/', '/', 's'] ∧
      joinWithSingleSlash c10Dest.url (repoName ['s'] none) = ['x', '/', 's'] ∧
      build_repository_url c10Dest ['s'] none ≠
        joinWithSingleSlash c10Dest.url (repoName ['s'] none) :=
  ⟨by decide, by decide, by decide⟩

/-- C10 (amended): whenever the base URL does not already end in two or
more '/' characters, `build_repository_url` joins the base URL and the
repository name (service name, directly concatenated with the suffix
when given) by exactly one '/' separator, whether or not the base ends
with '/'. When the base ends in a run of several slashes, the whole run
is kept and the name is appended after it. -/
theorem C10_single_slash_join (destination : Destination) (service_name : List Char)
    (suffix : Option (List Char)) (h : endsWithDoubleSlash destination.url = false) :
    build_repository_url destination service_name suffix =
      joinWithSingleSlash destination.url (repoName service_name suffix) :=
  join_eq_of_not_double destination.url (repoName service_name suffix) h

/-- Witness for C10: a base URL with a single trailing slash and one
without, both joined by exactly one separator. -/
theorem C10_witness :
    (endsWithDoubleSlash ['x', '/'] = false ∧
      build_repository_url
          { dest_type := DestinationType.Local, url := ['x', '/'], description := "" }
          ['s'] (some ['-', 'p']) =
        joinWithSingleSlash ['x', '/'] (repoName ['s'] (some ['-', 'p'])))
    ∧ (endsWithDoubleSlash ['x'] = false ∧
      build_repository_url
          { dest_type := DestinationType.Local, url := ['x'], description := "" }
          ['s'] none =
        joinWithSingleSlash ['x'] (repoName ['s'] none)) :=
  ⟨⟨by decide, C10_single_slash_join
      { dest_type := DestinationType.Local, url := ['x', '/'], description := "" }
      ['s'] (some ['-', 'p']) (by decide)⟩,
    ⟨by decide, C10_single_slash_join
      { dest_type := DestinationType.Local, url := ['x'], description := "" }
      ['s'] none (by decide)⟩⟩

/-! ## Backup locking (`src/utils/locker.rs`) -/

namespace Locker

/-- The busy error produced at locker.rs:49-52 when `try_write` fails. -/
def busyMessage (service_name : String) : String :=
  "Service '" ++ service_name ++ "' is already being backed up (lock held)"

/-- Host-visible state of the advisory locks: the service names whose
lock file currently carries a live exclusive (write) hold. The
`fd_lock::RwLock::try_write` call inside `BackupLock::acquire` is
modelled as an atomic test-and-set on this table. -/
abbrev LockTable := List String

/-- `BackupLock::acquire` (locker.rs:19-64): strictly non-blocking —
when a live hold already exists for the same service name the call
fails immediately with the busy error and creates no handle; otherwise
it records the new exclusive hold (the returned lock handle). -/
def acquire (service_name : String) (s : LockTable) : Except String LockTable :=
  if service_name ∈ s then Except.error (busyMessage service_name)
  else Except.ok (service_name :: s)

/-- End of a `BackupLock`'s scope (locker.rs:84-93, plus the host
dropping the fd lock when the guard and file close): the exclusive hold
disappears; the leftover lock-file marker carries no exclusivity. -/
def release (service_name : String) (s : LockTable) : LockTable :=
  s.erase service_name

inductive LockEvent
  | acq (n : String)
  | rel (n : String)
  deriving DecidableEq, Repr

/-- One acquire/release step as observed on the host lock table; a
failed acquire leaves the table unchanged (no handle is created). -/
def lockStep (s : LockTable) : LockEvent → LockTable
  | .acq n =>
      match acquire n s with
      | .ok s2 => s2
      | .error _ => s
  | .rel n => release n s

/-- The lock table after a sequence of acquire/release events starting
from no holds. -/
def runLocks (es : List LockEvent) : LockTable :=
  es.foldl lockStep []

lemma lockStep_nodup {s : LockTable} (hs : s.Nodup) (e : LockEvent) :
    (lockStep s e).Nodup := by
  cases e with
  | acq n =>
      unfold lockStep acquire
      by_cases h : n ∈ s
      · simp only [if_pos h]
        exact hs
      · simp only [if_neg h]
        exact List.nodup_cons.mpr ⟨h, hs⟩
  | rel n => exact hs.erase n

lemma runLocks_nodup (es : List LockEvent) : (runLocks es).Nodup := by
  suffices h : ∀ s : LockTable, s.Nodup → (es.foldl lockStep s).Nodup by
    exact h [] List.nodup_nil
  induction es with
  | nil => exact fun s hs => hs
  | cons e es ih => exact fun s hs => ih _ (lockStep_nodup hs e)

end Locker

/-! ## Claim C9 -/

/-- C9: in every lock table reachable by acquire/release events there is
at most one live hold per service name; while a hold for a name is live
a second acquire for that name fails immediately with the busy error and
changes nothing (no handle is created); and once the hold is released a
subsequent acquire for that name succeeds. -/
theorem C9_lock_mutual_exclusion (n : String) (es : List Locker.LockEvent)
    (s : Locker.LockTable) (hlive : n ∈ s) :
    (Locker.runLocks es).count n ≤ 1
    ∧ (Locker.acquire n s = Except.error (Locker.busyMessage n)
        ∧ Locker.lockStep s (Locker.LockEvent.acq n) = s)
    ∧ Locker.acquire n (Locker.release n (Locker.runLocks es)) =
        Except.ok (n :: Locker.release n (Locker.runLocks es)) := by
  refine ⟨?_, ⟨?_, ?_⟩, ?_⟩
  · exact List.nodup_iff_count_le_one.mp (Locker.runLocks_nodup es) n
  · unfold Locker.acquire
    rw [if_pos hlive]
  · simp [Locker.lockStep, Locker.acquire, hlive]
  · have hnd := Locker.runLocks_nodup es
    have hnm : n ∉ (Locker.runLocks es).erase n := hnd.not_mem_erase
    unfold Locker.acquire Locker.release
    rw [if_neg hnm]

/-- Witness for C9: acquire "svc" once, observe the second acquire fail
busy while the hold is live, and the acquire after release succeed. -/
theorem C9_witness :
    "svc" ∈ Locker.runLocks [Locker.LockEvent.acq "svc"] ∧
      ((Locker.runLocks [Locker.LockEvent.acq "svc"]).count "svc" ≤ 1
      ∧ (Locker.acquire "svc" (Locker.runLocks [Locker.LockEvent.acq "svc"]) =
            Except.error (Locker.busyMessage "svc")
          ∧ Locker.lockStep (Locker.runLocks [Locker.LockEvent.acq "svc"])
              (Locker.LockEvent.acq "svc") =
            Locker.runLocks [Locker.LockEvent.acq "svc"])
      ∧ Locker.acquire "svc"
            (Locker.release "svc" (Locker.runLocks [Locker.LockEvent.acq "svc"])) =
          Except.ok
            ("svc" :: Locker.release "svc" (Locker.runLocks [Locker.LockEvent.acq "svc"]))) :=
  ⟨by decide,
    C9_lock_mutual_exclusion "svc" [Locker.LockEvent.acq "svc"]
      (Locker.runLocks [Locker.LockEvent.acq "svc"]) (by decide)⟩

/-! ## Notification gate (`src/managers/notification.rs`) -/

namespace Notif

/-- `CacheEntry` (notification.rs:93-99). -/
structure CacheEntry where
  last_sent : Nat
  count : Nat
  deriving DecidableEq, Repr

/-- `NotificationCache` (notification.rs:102-106): the keyed entry map,
read from and written back to disk around every delivery attempt. -/
abbrev NotificationCache := List (String × CacheEntry)

/-- `Notification` (notification.rs:44-52); the rendered message, error
and duration fields play no part in gating and are omitted. -/
structure Notification where
  event_type : NotifyEvent
  service_name : String
  destination : Option String
  deriving DecidableEq, Repr

/-- `is_enabled` (notification.rs:125-130). -/
def is_enabled (config : NotificationConfig) (event : NotifyEvent) : Bool :=
  if config.discord_webhook_url.isEmpty then false
  else config.notify_on.contains event

/-- The cache key computed at notification.rs:144-149:
`"{service}:{destination-or-all}:{event:?}"`. -/
def cacheKey (n : Notification) : String :=
  n.service_name ++ ":" ++ (n.destination.getD "all") ++ ":" ++ n.event_type.debugStr

/-- `load_cache` (notification.rs:397-407): read the persisted cache.
`ok = false` models the fallible part — a read error or a parse error
(the two anyhow contexts are collapsed into one representative message);
a missing cache file yields the default empty cache *without* error and
is covered by `cache = []`. -/
def load_cache (cache : NotificationCache) (ok : Bool) :
    Except String NotificationCache :=
  if ok then Except.ok cache else Except.error "Failed to read notification cache"

/-- `is_rate_limited` (notification.rs:352-369): loads the cache with
`?`, so a load failure propagates; `now` is the Unix clock in seconds.
The `u64` subtraction agrees with `Nat` subtraction because entries are
only written with `last_sent ≤ now`. -/
def is_rate_limited (config : NotificationConfig) (cache : NotificationCache)
    (loadOk : Bool) (now : Nat) (cache_key : String) : Except String Bool :=
  match load_cache cache loadOk with
  | Except.error e => Except.error e
  | Except.ok c =>
      match c.lookup cache_key with
      | some entry =>
          Except.ok (decide (now - entry.last_sent < config.rate_limit_minutes * 60))
      | none => Except.ok false

/-- `HashMap::insert` on the association-list embedding: replace any
entry with the same key. -/
def insertEntry (cache : NotificationCache) (key : String) (e : CacheEntry) :
    NotificationCache :=
  (key, e) :: cache.filter fun kv => kv.1 != key

/-- The pure insert-and-prune step of `update_cache`
(notification.rs:380-390): insert the fresh entry for the key, then
retain every entry newer than `now.saturating_sub(86400)` (truncated
subtraction, as for `Nat`). -/
def updatedEntries (cache : NotificationCache) (cache_key : String) (now : Nat) :
    NotificationCache :=
  let newCount :=
    match cache.lookup cache_key with
    | some e => e.count + 1
    | none => 1
  (insertEntry cache cache_key { last_sent := now, count := newCount }).filter
    fun kv => decide (now - 86400 < kv.2.last_sent)

/-- `update_cache` (notification.rs:372-394): re-load the cache with
`?`, insert and prune, then `save_cache` with `?` — a save failure
(directory creation, serialization or write, notification.rs:410-423,
collapsed into one representative message) propagates and the on-disk
cache keeps its previous content. -/
def update_cache (cache : NotificationCache) (loadOk saveOk : Bool)
    (cache_key : String) (now : Nat) : Except String NotificationCache :=
  match load_cache cache loadOk with
  | Except.error e => Except.error e
  | Except.ok c =>
      if saveOk then Except.ok (updatedEntries c cache_key now)
      else Except.error "Failed to write notification cache"

/-- External outcomes of one `send` call, one per fallible call site:
the `load_cache` inside `is_rate_limited` (notification.rs:151/353),
the `load_cache` inside `update_cache` (notification.rs:161/373), the
`save_cache` (notification.rs:392), and the webhook delivery. -/
structure SendOracle where
  loadRateOk : Bool
  loadUpdateOk : Bool
  saveOk : Bool
  deliveryOk : Bool
  deriving DecidableEq, Repr

/-- Result of one `send` (notification.rs:133-169): the returned
`Result<()>`, whether `send_webhook` ran and succeeded, and the
persisted cache afterwards. -/
structure SendResult where
  result : Except String Unit
  delivered : Bool
  cache : NotificationCache
  deriving Repr

/-- `send` (notification.rs:133-169). Each `?` of the source is a
branch here: a cache-load failure in the rate check aborts before the
webhook; a delivery failure aborts before `update_cache`, leaving the
cache unchanged; a load or save failure inside `update_cache` makes
`send` return that error after a successful delivery, with the
persisted cache unchanged. -/
def send (config : NotificationConfig) (cache : NotificationCache) (now : Nat)
    (n : Notification) (o : SendOracle) : SendResult :=
  if !is_enabled config n.event_type then
    { result := Except.ok (), delivered := false, cache := cache }
  else
    let key := cacheKey n
    match is_rate_limited config cache o.loadRateOk now key with
    | Except.error e => { result := Except.error e, delivered := false, cache := cache }
    | Except.ok true => { result := Except.ok (), delivered := false, cache := cache }
    | Except.ok false =>
        if !o.deliveryOk then
          { result := Except.error "Failed to send Discord webhook"
            delivered := false
            cache := cache }
        else
          match update_cache cache o.loadUpdateOk o.saveOk key now with
          | Except.error e =>
              { result := Except.error e, delivered := true, cache := cache }
          | Except.ok c2 => { result := Except.ok (), delivered := true, cache := c2 }

lemma updatedEntries_lookup_self (cache : NotificationCache) (key : String) (now : Nat)
    (h : 0 < now) :
    (updatedEntries cache key now).lookup key =
      some { last_sent := now,
             count :=
               match cache.lookup key with
               | some e => e.count + 1
               | none => 1 } := by
  unfold updatedEntries insertEntry
  have hlt : now - 86400 < now := Nat.sub_lt h (by norm_num)
  simp [List.filter_cons, hlt, List.lookup]

/-- The persisted cache changes only on the branch where the webhook
was delivered: in every other branch `send` leaves it untouched. -/
lemma send_cache_eq_or_delivered (config : NotificationConfig)
    (cache : NotificationCache) (now : Nat) (n : Notification) (o : SendOracle) :
    (send config cache now n o).cache = cache ∨
      (send config cache now n o).delivered = true := by
  unfold send
  cases he : is_enabled config n.event_type
  · simp only [he, Bool.not_false, if_true]
    left
    trivial
  · simp only [he, Bool.not_true, Bool.false_eq_true, if_false]
    rcases hrl : is_rate_limited config cache o.loadRateOk now (cacheKey n) with e | b
    · simp only [hrl]
      left
      trivial
    · cases b
      · simp only [hrl]
        cases hdo : o.deliveryOk
        · simp only [hdo, Bool.not_false, if_true]
          left
          trivial
        · simp only [hdo, Bool.not_true, Bool.false_eq_true, if_false]
          rcases hup : update_cache cache o.loadUpdateOk o.saveOk (cacheKey n) now
            with e2 | c2
          · simp only [hup]
            right
            trivial
          · simp only [hup]
            right
            trivial
      · simp only [hrl]
        left
        trivial

end Notif

/-! ## Claim C6 -/

def c6Config : NotificationConfig :=
  { discord_webhook_url := "https://example.invalid/hook"
    notify_on := [NotifyEvent.Failure]
    rate_limit_minutes := 60
    cache_file := "/tmp/cache.json" }

def c6Event : Notif.Notification :=
  { event_type := NotifyEvent.Failure
    service_name := "db"
    destination := some "local" }

def c6AllOk : Notif.SendOracle :=
  { loadRateOk := true, loadUpdateOk := true, saveOk := true, deliveryOk := true }

def c6SaveFail : Notif.SendOracle :=
  { c6AllOk with saveOk := false }

/-- C6 counterexample: two same-key Failure events 500 s apart, well
inside the 60-minute cooldown window. The first is delivered, but the
cache save after it fails (`?` at notification.rs:161 on
`update_cache`), so `send` returns that error and the persisted cache
is unchanged — and the second event is delivered as well. The claimed
consequence "of two same-key Failure events within one cooldown window
only the first is delivered" fails on the code. -/
theorem C6_counterexample :
    Notif.is_enabled c6Config c6Event.event_type = true
    ∧ (Notif.send c6Config [] 1000 c6Event c6SaveFail).delivered = true
    ∧ (Notif.send c6Config [] 1000 c6Event c6SaveFail).result =
        Except.error "Failed to write notification cache"
    ∧ (Notif.send c6Config [] 1000 c6Event c6SaveFail).cache = []
    ∧ 1500 - 1000 < c6Config.rate_limit_minutes * 60
    ∧ (Notif.send c6Config (Notif.send c6Config [] 1000 c6Event c6SaveFail).cache 1500
        c6Event c6AllOk).delivered = true :=
  ⟨rfl, rfl, rfl, rfl, by decide, rfl⟩

/-- C6 (amended): for an enabled event kind — (a) when the rate-check
cache load succeeds and the key's entry is younger than the cooldown
window, `send` suppresses delivery and returns success with the cache
unchanged; (b) the persisted cache is modified only after a confirmed
successful delivery; (c) on delivery failure `send` returns the error
and the cache is unchanged; (d) when delivery and the subsequent cache
load and save all succeed, the entry is updated to the current time;
(e) when the cache save after a successful delivery fails, `send`
returns that error, the delivery already happened and the persisted
cache is unchanged — so a second same-key event inside the window is
delivered again; (f) when every cache load and save succeeds, of two
same-key events within one cooldown window only the first is delivered,
while a third after expiry is delivered. `1 ≤ now` reflects a clock
after the Unix epoch. -/
theorem C6_cooldown_gate (config : NotificationConfig) (cache : Notif.NotificationCache)
    (now : Nat) (n : Notif.Notification) (o : Notif.SendOracle)
    (hen : Notif.is_enabled config n.event_type = true) :
    (∀ entry, o.loadRateOk = true → cache.lookup (Notif.cacheKey n) = some entry →
      entry.last_sent ≤ now →
      now - entry.last_sent < config.rate_limit_minutes * 60 →
      Notif.send config cache now n o =
        { result := Except.ok (), delivered := false, cache := cache })
    ∧ ((Notif.send config cache now n o).cache ≠ cache →
        (Notif.send config cache now n o).delivered = true)
    ∧ (Notif.is_rate_limited config cache o.loadRateOk now (Notif.cacheKey n) =
          Except.ok false → o.deliveryOk = false →
      Notif.send config cache now n o =
        { result := Except.error "Failed to send Discord webhook"
          delivered := false
          cache := cache })
    ∧ (Notif.is_rate_limited config cache o.loadRateOk now (Notif.cacheKey n) =
          Except.ok false →
        o.loadUpdateOk = true → o.saveOk = true → o.deliveryOk = true → 1 ≤ now →
      Notif.send config cache now n o =
        { result := Except.ok ()
          delivered := true
          cache := Notif.updatedEntries cache (Notif.cacheKey n) now } ∧
      ∃ cnt, (Notif.send config cache now n o).cache.lookup (Notif.cacheKey n) =
        some { last_sent := now, count := cnt })
    ∧ (Notif.is_rate_limited config cache o.loadRateOk now (Notif.cacheKey n) =
          Except.ok false →
        o.loadUpdateOk = true → o.saveOk = false → o.deliveryOk = true →
      Notif.send config cache now n o =
        { result := Except.error "Failed to write notification cache"
          delivered := true
          cache := cache })
    ∧ (∀ t1 t2 t3 : Nat, ∀ o2 : Notif.SendOracle, o2.loadRateOk = true →
        Notif.is_rate_limited config cache true t1 (Notif.cacheKey n) = Except.ok false →
        1 ≤ t1 → t2 - t1 < config.rate_limit_minutes * 60 →
        config.rate_limit_minutes * 60 ≤ t3 - t1 →
        (Notif.send config cache t1 n
          { loadRateOk := true, loadUpdateOk := true, saveOk := true,
            deliveryOk := true }).delivered = true ∧
        Notif.send config (Notif.send config cache t1 n
            { loadRateOk := true, loadUpdateOk := true, saveOk := true,
              deliveryOk := true }).cache t2 n o2 =
          { result := Except.ok ()
            delivered := false
            cache := (Notif.send config cache t1 n
              { loadRateOk := true, loadUpdateOk := true, saveOk := true,
                deliveryOk := true }).cache } ∧
        (Notif.send config (Notif.send config cache t1 n
            { loadRateOk := true, loadUpdateOk := true, saveOk := true,
              deliveryOk := true }).cache t3 n
          { loadRateOk := true, loadUpdateOk := true, saveOk := true,
            deliveryOk := true }).delivered = true) := by
  refine ⟨?_, ?_, ?_, ?_, ?_, ?_⟩
  · intro entry hload hlook hle hage
    have hlim : Notif.is_rate_limited config cache o.loadRateOk now (Notif.cacheKey n) =
        Except.ok true := by
      simp [Notif.is_rate_limited, Notif.load_cache, hload, hlook, hage]
    simp [Notif.send, hen, hlim]
  · intro hne
    rcases Notif.send_cache_eq_or_delivered config cache now n o with h | h
    · exact absurd h hne
    · exact h
  · intro hlim hd
    simp [Notif.send, hen, hlim, hd]
  · intro hlim hlu hsv hd h1
    have hupd : Notif.update_cache cache o.loadUpdateOk o.saveOk (Notif.cacheKey n) now =
        Except.ok (Notif.updatedEntries cache (Notif.cacheKey n) now) := by
      simp [Notif.update_cache, Notif.load_cache, hlu, hsv]
    refine ⟨by simp [Notif.send, hen, hlim, hd, hupd], ?_⟩
    refine ⟨(match cache.lookup (Notif.cacheKey n) with
      | some e => e.count + 1
      | none => 1), ?_⟩
    have hc : (Notif.send config cache now n o).cache =
        Notif.updatedEntries cache (Notif.cacheKey n) now := by
      simp [Notif.send, hen, hlim, hd, hupd]
    rw [hc]
    exact Notif.updatedEntries_lookup_self cache (Notif.cacheKey n) now h1
  · intro hlim hlu hsv hd
    have hupd : Notif.update_cache cache o.loadUpdateOk o.saveOk (Notif.cacheKey n) now =
        Except.error "Failed to write notification cache" := by
      simp [Notif.update_cache, Notif.load_cache, hlu, hsv]
    simp [Notif.send, hen, hlim, hd, hupd]
  · intro t1 t2 t3 o2 ho2 hlim1 h1 hwin2 hwin3
    have hupd1 : Notif.update_cache cache true true (Notif.cacheKey n) t1 =
        Except.ok (Notif.updatedEntries cache (Notif.cacheKey n) t1) := by
      simp [Notif.update_cache, Notif.load_cache]
    have hsend1 : Notif.send config cache t1 n
        { loadRateOk := true, loadUpdateOk := true, saveOk := true, deliveryOk := true } =
        { result := Except.ok ()
          delivered := true
          cache := Notif.updatedEntries cache (Notif.cacheKey n) t1 } := by
      simp [Notif.send, hen, hlim1, hupd1]
    have hlook1 := Notif.updatedEntries_lookup_self cache (Notif.cacheKey n) t1 h1
    refine ⟨by rw [hsend1], ?_, ?_⟩
    · rw [hsend1]
      have hlim2 : Notif.is_rate_limited config
          (Notif.updatedEntries cache (Notif.cacheKey n) t1) o2.loadRateOk t2
          (Notif.cacheKey n) = Except.ok true := by
        simp [Notif.is_rate_limited, Notif.load_cache, ho2, hlook1, hwin2]
      simp [Notif.send, hen, hlim2]
    · rw [hsend1]
      have hlim3 : Notif.is_rate_limited config
          (Notif.updatedEntries cache (Notif.cacheKey n) t1) true t3
          (Notif.cacheKey n) = Except.ok false := by
        simp only [Notif.is_rate_limited, Notif.load_cache, if_true, hlook1]
        simpa using Nat.not_lt.mpr hwin3
      have hupd3 : Notif.update_cache (Notif.updatedEntries cache (Notif.cacheKey n) t1)
          true true (Notif.cacheKey n) t3 =
          Except.ok (Notif.updatedEntries
            (Notif.updatedEntries cache (Notif.cacheKey n) t1) (Notif.cacheKey n) t3) := by
        simp [Notif.update_cache, Notif.load_cache]
      simp [Notif.send, hen, hlim3, hupd3]

/-- Witness for C6: a Failure notification for (service "db",
destination "local") with a 60-minute cooldown and all cache reads and
writes succeeding: delivered at t=1000, suppressed at t=2000, delivered
again at t=5000. -/
theorem C6_witness :
    (Notif.send c6Config [] 1000 c6Event c6AllOk).delivered = true
    ∧ Notif.send c6Config (Notif.send c6Config [] 1000 c6Event c6AllOk).cache 2000
        c6Event c6AllOk =
      { result := Except.ok ()
        delivered := false
        cache := (Notif.send c6Config [] 1000 c6Event c6AllOk).cache }
    ∧ (Notif.send c6Config (Notif.send c6Config [] 1000 c6Event c6AllOk).cache 5000
        c6Event c6AllOk).delivered = true := by
  have h := (C6_cooldown_gate c6Config [] 1000 c6Event c6AllOk rfl).2.2.2.2.2
    1000 2000 5000 c6AllOk rfl rfl (by decide) (by decide) (by decide)
  exact h

/-! ## Backup coordination (`src/managers/backup.rs`) -/

namespace Backup

/-- Outcome of the `restic forget` subprocess inside `apply_retention`
(restic.rs:159-215): the process may complete with a zero or a non-zero
exit status — a non-zero status is only logged (restic.rs:206-212) — or
the call may fail hard (spawn failure or timeout, restic.rs:193-204),
which `apply_retention` returns as an error. -/
inductive RetentionOutcome
  | completedOk
  | completedErr
  | failed
  deriving DecidableEq, Repr

/-- Per-destination external-effect oracle: one outcome per call site
of `backup_to_destination` (backup.rs:187-259). -/
structure DestOracle where
  /-- Outcome of the i-th pre-backup hook invocation (`run_shell_command`). -/
  preHook : Nat → Bool
  /-- `fs::create_dir_all` on the temp staging dir (backup.rs:202-206). -/
  mkTempDir : Bool
  /-- `docker::volume_exists` (backup.rs:369): `none` models a docker
  command error, `some b` the reported existence. -/
  volumeExists : String → Option Bool
  /-- `docker::archive_volume` (backup.rs:377). -/
  archiveVolume : String → Bool
  /-- `full_path.exists()` in `collect_paths` (backup.rs:404). -/
  pathExists : String → Bool
  /-- `restic::init_repository` (success includes "already initialized"). -/
  initRepo : Bool
  /-- `restic::backup` — the transfer (backup.rs:237). -/
  transfer : Bool
  /-- The `restic forget` subprocess behind `apply_retention` (backup.rs:241). -/
  retention : RetentionOutcome
  /-- `fs::remove_dir_all` on the temp dir (ignored, warn only, backup.rs:245). -/
  removeTempDir : Bool
  /-- Outcome of the i-th post-backup hook invocation. -/
  postHook : Nat → Bool

/-- The distinct error exits of `backup_to_destination`, one per anyhow
context / bail site (the comments give the context strings). -/
inductive DestError
  | preHookFailed (hookName : String)
  | tempDirFailed
  | volumeCheckFailed (volume : String)
  | volumeMissing (volume : String)
  | archiveFailed (volume : String)
  | initFailed
  | transferFailed
  | retentionFailed
  | postHookFailed (hookName : String)
  deriving DecidableEq, Repr

/-- Observable actions of one service run, in execution order:
`destStart` is the per-destination info log of backup.rs:115,
`preHookRun`/`postHookRun` each `run_hook` invocation,
`initRepo`/`transfer`/`retentionApply` the restic calls,
`unlockRepo` the post-failure unlock (backup.rs:152-156), and the
`notify*` events the coordinator's notification calls (which reach the
manager only when one is configured, backup.rs:55-80). -/
inductive BEvent
  | destStart (target : String)
  | preHookRun (target : String) (idx : Nat)
  | initRepo (target : String)
  | transfer (target : String)
  | retentionApply (target : String)
  | postHookRun (target : String) (idx : Nat)
  | unlockRepo (target : String)
  | notifyLongRunning (target : String)
  | notifyFailure (target : String)
  | notifySuccess
  deriving DecidableEq, Repr

/-- Hook display name (backup.rs:307-311). -/
def hookDisplayName (hook : Hook) : String :=
  if hook.name.isEmpty then hook.command else hook.name

/-- The hook loop shared by `run_pre_hooks`/`run_post_hooks`
(backup.rs:276-279 and 298-301) with `run_hook` (backup.rs:306-343)
inlined: run each hook in order; a failure with `continue_on_error` set
is only logged; the first failure without it aborts with that hook's
display name. Also returns the indices of the invocations attempted. -/
def runHookList (outcome : Nat → Bool) : Nat → List Hook → Except String Unit × List Nat
  | _, [] => (Except.ok (), [])
  | i, hook :: rest =>
      if outcome i then
        let tail := runHookList outcome (i + 1) rest
        (tail.1, i :: tail.2)
      else if hook.continue_on_error then
        let tail := runHookList outcome (i + 1) rest
        (tail.1, i :: tail.2)
      else
        (Except.error (hookDisplayName hook), [i])

/-- The configured pre-backup hooks (backup.rs:263-268). -/
def preHooks (service : ResolvedServiceConfig) : List Hook :=
  (service.config.map fun c => c.pre_backup_hooks).getD []

/-- The configured post-backup hooks (backup.rs:285-290). -/
def postHooks (service : ResolvedServiceConfig) : List Hook :=
  (service.config.map fun c => c.post_backup_hooks).getD []

/-- `run_pre_hooks` (backup.rs:262-281). -/
def run_pre_hooks (service : ResolvedServiceConfig) (d : DestOracle) :
    Except String Unit × List Nat :=
  runHookList d.preHook 0 (preHooks service)

/-- `run_post_hooks` (backup.rs:284-303). -/
def run_post_hooks (service : ResolvedServiceConfig) (d : DestOracle) :
    Except String Unit × List Nat :=
  runHookList d.postHook 0 (postHooks service)

/-- The configured docker volumes (backup.rs:351-356). -/
def volumesOf (service : ResolvedServiceConfig) : List String :=
  (service.config.map fun c => c.volumes).getD []

/-- The existence pass of `backup_volumes` (backup.rs:367-372). -/
def checkVolumes (d : DestOracle) : List String → Except DestError Unit
  | [] => Except.ok ()
  | v :: rest =>
      match d.volumeExists v with
      | none => Except.error (DestError.volumeCheckFailed v)
      | some false => Except.error (DestError.volumeMissing v)
      | some true => checkVolumes d rest

/-- The archive pass of `backup_volumes` (backup.rs:374-381); archives
are staged as `<volume>.tar.gz` in the temp dir. -/
def archiveVolumes (d : DestOracle) : List String → Except DestError (List String)
  | [] => Except.ok []
  | v :: rest =>
      if d.archiveVolume v then
        match archiveVolumes d rest with
        | Except.ok acc => Except.ok ((v ++ ".tar.gz") :: acc)
        | Except.error e => Except.error e
      else Except.error (DestError.archiveFailed v)

/-- `backup_volumes` (backup.rs:346-384). -/
def backup_volumes (service : ResolvedServiceConfig) (d : DestOracle) :
    Except DestError (List String) :=
  if (volumesOf service).isEmpty then Except.ok []
  else
    match checkVolumes d (volumesOf service) with
    | Except.error e => Except.error e
    | Except.ok _ => archiveVolumes d (volumesOf service)

/-- `collect_paths` (backup.rs:387-413): absolute paths as-is, relative
paths joined under `docker_base`; non-existent paths are skipped with a
warning. `is_absolute` is embedded as a leading '/'. -/
def collect_paths (global : GlobalConfig) (service : ResolvedServiceConfig)
    (d : DestOracle) : List String :=
  ((service.config.map fun c => c.paths).getD []).filterMap fun path =>
    let full_path := if path.startsWith "/" then path else global.docker_base ++ "/" ++ path
    if d.pathExists full_path then some full_path else none

/-- `backup_to_destination` (backup.rs:187-259), returning the result
and the observable actions of this destination attempt. -/
def backup_to_destination (global : GlobalConfig) (service : ResolvedServiceConfig)
    (target : String) (d : DestOracle) : Except DestError Unit × List BEvent :=
  let pre := run_pre_hooks service d
  let preEvents := pre.2.map (BEvent.preHookRun target)
  match pre.1 with
  | Except.error n => (Except.error (DestError.preHookFailed n), preEvents)
  | Except.ok _ =>
    if !d.mkTempDir then (Except.error DestError.tempDirFailed, preEvents)
    else
      match backup_volumes service d with
      | Except.error e => (Except.error e, preEvents)
      | Except.ok volume_archives =>
        let paths_to_backup := collect_paths global service d ++ volume_archives
        if paths_to_backup.isEmpty then (Except.ok (), preEvents)
        else if !d.initRepo then
          (Except.error DestError.initFailed, preEvents ++ [BEvent.initRepo target])
        else if !d.transfer then
          (Except.error DestError.transferFailed,
            preEvents ++ [BEvent.initRepo target, BEvent.transfer target])
        else
          match d.retention with
          | RetentionOutcome.failed =>
              (Except.error DestError.retentionFailed,
                preEvents ++ [BEvent.initRepo target, BEvent.transfer target,
                  BEvent.retentionApply target])
          | _ =>
              let post := run_post_hooks service d
              let evs := preEvents ++ [BEvent.initRepo target, BEvent.transfer target,
                BEvent.retentionApply target] ++ post.2.map (BEvent.postHookRun target)
              match post.1 with
              | Except.error n => (Except.error (DestError.postHookFailed n), evs)
              | Except.ok _ => (Except.ok (), evs)

/-- Run-level oracle for `backup_service` (backup.rs:83-184). -/
structure RunOracle where
  /-- `BackupLock::acquire` outcome for this run (true = lock free). -/
  lockFree : Bool
  /-- Oracle for the destination at position `i` of the target list. -/
  dest : Nat → DestOracle
  /-- `start_time.elapsed().as_secs()` at the long-running check
  (backup.rs:121) before destination `i`. -/
  elapsedAtCheck : Nat → Nat
  /-- `restic::unlock_repository` outcome after a failure of destination
  `i` (soft, warn only; backup.rs:154-156). -/
  unlockOk : Nat → Bool

/-- `BackupManager` (backup.rs:14-18). -/
structure BackupManager where
  config : Config
  resolved_services : List (String × ResolvedServiceConfig)

/-- `BackupManager::new` (backup.rs:27-31): a notification manager
exists iff a Discord webhook URL is configured; each `notify_*` helper
(backup.rs:55-80) is a no-op without one. -/
def BackupManager.hasNotificationManager (m : BackupManager) : Bool :=
  !m.config.notifications.discord_webhook_url.isEmpty

/-- The run-level errors of `backup_service`: the "Service not found"
context, the lock-acquisition context, the aborting destination lookup
(backup.rs:109-113), and the aggregate bail of backup.rs:175-181
carrying each failed target with its cause (the source renders this
list as `"target: error"` strings joined by commas). -/
inductive RunError
  | serviceNotFound (name : String)
  | lockBusy (name : String)
  | destinationNotFound (target : String)
  | aggregate (failures : List (String × DestError))
  deriving DecidableEq, Repr

/-- The destination loop of `backup_service` (backup.rs:108-159). `i`
is the position inside the full target list (for oracle indexing);
`notified`, `errors` and `succ` mirror `long_running_notified`,
`errors` and `success_count`. -/
def backupLoop (m : BackupManager) (service : ResolvedServiceConfig) (o : RunOracle) :
    Nat → List String → Bool → List (String × DestError) → Nat →
      Except RunError (List (String × DestError) × Nat) × List BEvent
  | _, [], _, errors, succ => (Except.ok (errors, succ), [])
  | i, target :: rest, notified, errors, succ =>
      match m.config.destinations.lookup target with
      | none => (Except.error (RunError.destinationNotFound target), [])
      | some _ =>
          let threshold := m.config.global.long_running_threshold_minutes * 60
          let fireLong := !notified && decide (threshold < o.elapsedAtCheck i)
          let longEvents :=
            if fireLong && m.hasNotificationManager then [BEvent.notifyLongRunning target]
            else []
          let notified2 := notified || fireLong
          let dres := backup_to_destination m.config.global service target (o.dest i)
          match dres.1 with
          | Except.ok _ =>
              let tail := backupLoop m service o (i + 1) rest notified2 errors (succ + 1)
              (tail.1, BEvent.destStart target :: (longEvents ++ dres.2 ++ tail.2))
          | Except.error e =>
              let failEvents :=
                (if m.hasNotificationManager then [BEvent.notifyFailure target] else []) ++
                  [BEvent.unlockRepo target]
              let tail := backupLoop m service o (i + 1) rest notified2
                (errors ++ [(target, e)]) succ
              (tail.1, BEvent.destStart target ::
                (longEvents ++ dres.2 ++ failEvents ++ tail.2))

/-- `backup_service` (backup.rs:83-184). -/
def backup_service (m : BackupManager) (service_name : String) (o : RunOracle) :
    Except RunError Unit × List BEvent :=
  match m.resolved_services.lookup service_name with
  | none => (Except.error (RunError.serviceNotFound service_name), [])
  | some service =>
    if !service.enabled then (Except.ok (), [])
    else if !o.lockFree then (Except.error (RunError.lockBusy service_name), [])
    else
      let loop := backupLoop m service o 0 service.targets false [] 0
      match loop.1 with
      | Except.error e => (Except.error e, loop.2)
      | Except.ok (errors, succ) =>
          if errors.isEmpty then
            let endEvents :=
              if 0 < succ && m.hasNotificationManager then [BEvent.notifySuccess] else []
            (Except.ok (), loop.2 ++ endEvents)
          else (Except.error (RunError.aggregate errors), loop.2)

/-- Every target of the list is present in the destination map — the
invariant `load_config` validation establishes for resolved targets
(loader.rs:74-80). -/
def allTargetsFound (cfg : Config) (ts : List String) : Prop :=
  ∀ t ∈ ts, (cfg.destinations.lookup t).isSome = true

/-- The failures the loop collects: exactly the targets whose isolated
attempt fails, in list order, each with its specific cause. -/
def failuresFrom (m : BackupManager) (service : ResolvedServiceConfig) (o : RunOracle) :
    Nat → List String → List (String × DestError)
  | _, [] => []
  | i, t :: rest =>
      match (backup_to_destination m.config.global service t (o.dest i)).1 with
      | Except.error e => (t, e) :: failuresFrom m service o (i + 1) rest
      | Except.ok _ => failuresFrom m service o (i + 1) rest

/-- The number of successful destinations from position `i` on. -/
def succFrom (m : BackupManager) (service : ResolvedServiceConfig) (o : RunOracle) :
    Nat → List String → Nat
  | _, [] => 0
  | i, t :: rest =>
      match (backup_to_destination m.config.global service t (o.dest i)).1 with
      | Except.error _ => succFrom m service o (i + 1) rest
      | Except.ok _ => succFrom m service o (i + 1) rest + 1

/-- Some long-running check observes an elapsed time above the
threshold (strictly, as at backup.rs:122). -/
def anyCheckExceeds (o : RunOracle) (threshold : Nat) : Nat → List String → Bool
  | _, [] => false
  | i, _ :: rest =>
      decide (threshold < o.elapsedAtCheck i) || anyCheckExceeds o threshold (i + 1) rest

def isLongRunningEvent : BEvent → Bool
  | BEvent.notifyLongRunning _ => true
  | _ => false

def isPostHookEvent : BEvent → Bool
  | BEvent.postHookRun _ _ => true
  | _ => false

lemma countP_map_eq_zero {α : Type} (f : α → BEvent) (p : BEvent → Bool)
    (h : ∀ a, p (f a) = false) (l : List α) : (l.map f).countP p = 0 := by
  induction l with
  | nil => rfl
  | cons a l ih => simp [List.countP_cons, h, ih]

lemma countP_map_eq_length {α : Type} (f : α → BEvent) (p : BEvent → Bool)
    (h : ∀ a, p (f a) = true) (l : List α) : (l.map f).countP p = l.length := by
  induction l with
  | nil => rfl
  | cons a l ih => simp [List.countP_cons, h, ih]

/-- Every event of one destination attempt is a pre-hook, init,
transfer, retention or post-hook event for that destination: a
predicate false on all five kinds counts zero occurrences. -/
lemma dest_events_countP_zero (global : GlobalConfig) (service : ResolvedServiceConfig)
    (target : String) (d : DestOracle) (p : BEvent → Bool)
    (hpre : ∀ j, p (BEvent.preHookRun target j) = false)
    (hinit : p (BEvent.initRepo target) = false)
    (htr : p (BEvent.transfer target) = false)
    (hret : p (BEvent.retentionApply target) = false)
    (hpost : ∀ j, p (BEvent.postHookRun target j) = false) :
    (backup_to_destination global service target d).2.countP p = 0 := by
  unfold backup_to_destination
  dsimp only
  split
  · exact countP_map_eq_zero _ p hpre _
  · split
    · exact countP_map_eq_zero _ p hpre _
    · split
      · exact countP_map_eq_zero _ p hpre _
      · split
        · exact countP_map_eq_zero _ p hpre _
        · split
          · simp [List.countP_append, List.countP_cons, countP_map_eq_zero _ p hpre,
              hinit]
          · split
            · simp [List.countP_append, List.countP_cons, countP_map_eq_zero _ p hpre,
                hinit, htr]
            · split
              · simp [List.countP_append, List.countP_cons,
                  countP_map_eq_zero _ p hpre, hinit, htr, hret]
              · split <;>
                  simp [List.countP_append, List.countP_cons,
                    countP_map_eq_zero _ p hpre, countP_map_eq_zero _ p hpost,
                    hinit, htr, hret]

/-- A failing pre-hook phase makes the destination attempt fail with
that hook's name before anything else happens: the attempt's events are
the pre-hook invocations alone. -/
lemma backup_to_destination_prehook_fail (global : GlobalConfig)
    (service : ResolvedServiceConfig) (target : String) (d : DestOracle) (n : String)
    (h : (run_pre_hooks service d).1 = Except.error n) :
    backup_to_destination global service target d =
      (Except.error (DestError.preHookFailed n),
        (run_pre_hooks service d).2.map (BEvent.preHookRun target)) := by
  unfold backup_to_destination
  dsimp only
  rw [h]

/-- When the transfer subprocess fails, the post-backup hooks of this
destination attempt never run, whatever else happens. -/
lemma dest_events_no_post_of_transfer_false (global : GlobalConfig)
    (service : ResolvedServiceConfig) (target : String) (d : DestOracle)
    (htr : d.transfer = false) :
    (backup_to_destination global service target d).2.countP isPostHookEvent = 0 := by
  have hpre0 : ∀ j, isPostHookEvent (BEvent.preHookRun target j) = false := fun _ => rfl
  unfold backup_to_destination
  dsimp only
  split
  · exact countP_map_eq_zero _ _ hpre0 _
  · split
    · exact countP_map_eq_zero _ _ hpre0 _
    · split
      · exact countP_map_eq_zero _ _ hpre0 _
      · split
        · exact countP_map_eq_zero _ _ hpre0 _
        · split
          · simp [List.countP_append, List.countP_cons, isPostHookEvent,
              countP_map_eq_zero _ _ hpre0]
          · split
            · simp [List.countP_append, List.countP_cons, isPostHookEvent,
                countP_map_eq_zero _ _ hpre0]
            · rename_i hcontra
              rw [htr] at hcontra
              simp at hcontra

/-- When pre-hooks, staging, volumes, init and transfer all succeed, the
backup units are non-empty and the retention subprocess does not fail
hard, the attempt runs the post-backup hooks and its outcome is theirs. -/
lemma backup_to_destination_reach_post (global : GlobalConfig)
    (service : ResolvedServiceConfig) (target : String) (d : DestOracle)
    (vols : List String)
    (hpre : (run_pre_hooks service d).1 = Except.ok ())
    (htmp : d.mkTempDir = true)
    (hvol : backup_volumes service d = Except.ok vols)
    (hne : (collect_paths global service d ++ vols).isEmpty = false)
    (hinit : d.initRepo = true) (htr : d.transfer = true)
    (hret : d.retention ≠ RetentionOutcome.failed) :
    backup_to_destination global service target d =
      ((match (run_post_hooks service d).1 with
        | Except.error n => Except.error (DestError.postHookFailed n)
        | Except.ok _ => Except.ok ()),
        (run_pre_hooks service d).2.map (BEvent.preHookRun target) ++
          [BEvent.initRepo target, BEvent.transfer target, BEvent.retentionApply target] ++
          (run_post_hooks service d).2.map (BEvent.postHookRun target)) := by
  unfold backup_to_destination
  dsimp only
  rw [hpre]
  simp only [htmp, hvol, hne, hinit, htr, Bool.not_true, Bool.false_eq_true, if_false]
  rcases hrr : d.retention with _ | _ | _
  · rcases hpost : (run_post_hooks service d).1 with n | u <;> rfl
  · rcases hpost : (run_post_hooks service d).1 with n | u <;> rfl
  · exact absurd hrr hret

/-- The loop never aborts when every target resolves, and it returns
exactly the accumulated failures and success count. -/
lemma backupLoop_result (m : BackupManager) (service : ResolvedServiceConfig)
    (o : RunOracle) :
    ∀ (ts : List String) (i : Nat) (notified : Bool)
      (errors : List (String × DestError)) (succ : Nat),
      allTargetsFound m.config ts →
      (backupLoop m service o i ts notified errors succ).1 =
        Except.ok (errors ++ failuresFrom m service o i ts,
          succ + succFrom m service o i ts) := by
  intro ts
  induction ts with
  | nil =>
      intro i notified errors succ _
      simp [backupLoop, failuresFrom, succFrom]
  | cons a rest ih =>
      intro i notified errors succ hfound
      have ha : (m.config.destinations.lookup a).isSome = true :=
        hfound a (List.mem_cons_self a rest)
      rcases Option.isSome_iff_exists.mp ha with ⟨dst, hdst⟩
      have hrest : allTargetsFound m.config rest :=
        fun x hx => hfound x (List.mem_cons_of_mem a hx)
      rcases hres : (backup_to_destination m.config.global service a (o.dest i)).1
        with e | u
      · simp only [backupLoop, hdst, hres]
        rw [ih _ _ _ _ hrest]
        simp [failuresFrom, succFrom, hres, List.append_assoc]
      · simp only [backupLoop, hdst, hres]
        rw [ih _ _ _ _ hrest]
        simp only [failuresFrom, succFrom, hres]
        have harith : succ + 1 + succFrom m service o (i + 1) rest =
            succ + (succFrom m service o (i + 1) rest + 1) := by omega
        rw [harith]

/-- Every destination of the list is started by the loop (the info log
of backup.rs:115 is reached for each), whatever earlier results were. -/
lemma destStart_mem_backupLoop (m : BackupManager) (service : ResolvedServiceConfig)
    (o : RunOracle) :
    ∀ (ts : List String) (i : Nat) (notified : Bool)
      (errors : List (String × DestError)) (succ : Nat),
      allTargetsFound m.config ts →
      ∀ t ∈ ts,
        BEvent.destStart t ∈ (backupLoop m service o i ts notified errors succ).2 := by
  intro ts
  induction ts with
  | nil =>
      intro i notified errors succ _ t ht
      exact absurd ht (List.not_mem_nil t)
  | cons a rest ih =>
      intro i notified errors succ hfound t ht
      have ha : (m.config.destinations.lookup a).isSome = true :=
        hfound a (List.mem_cons_self a rest)
      rcases Option.isSome_iff_exists.mp ha with ⟨dst, hdst⟩
      have hrest : allTargetsFound m.config rest :=
        fun x hx => hfound x (List.mem_cons_of_mem a hx)
      rcases hres : (backup_to_destination m.config.global service a (o.dest i)).1
        with e | u <;>
        simp only [backupLoop, hdst, hres] <;>
        rcases List.mem_cons.mp ht with h1 | h1
      · subst h1
        exact List.mem_cons_self _ _
      · exact List.mem_cons.mpr (Or.inr (List.mem_append_right _ (ih _ _ _ _ hrest t h1)))
      · subst h1
        exact List.mem_cons_self _ _
      · exact List.mem_cons.mpr (Or.inr (List.mem_append_right _ (ih _ _ _ _ hrest t h1)))

/-- Membership in the collected failures: exactly the positions whose
isolated destination attempt fails, with that attempt's cause. -/
lemma mem_failuresFrom (m : BackupManager) (service : ResolvedServiceConfig)
    (o : RunOracle) :
    ∀ (ts : List String) (i : Nat) (t : String) (e : DestError),
      ((t, e) ∈ failuresFrom m service o i ts ↔
        ∃ j, ts.get? j = some t ∧
          (backup_to_destination m.config.global service t (o.dest (i + j))).1 =
            Except.error e) := by
  intro ts
  induction ts with
  | nil =>
      intro i t e
      simp [failuresFrom]
  | cons a rest ih =>
      intro i t e
      rcases hres : (backup_to_destination m.config.global service a (o.dest i)).1
        with e0 | u
      · simp only [failuresFrom, hres]
        constructor
        · intro hmem
          rcases List.mem_cons.mp hmem with h1 | h1
          · rcases Prod.mk.injEq .. ▸ h1 with ⟨rfl, rfl⟩
            refine ⟨0, rfl, ?_⟩
            rw [Nat.add_zero]
            exact hres
          · rcases (ih (i + 1) t e).mp h1 with ⟨j, hj1, hj2⟩
            refine ⟨j + 1, hj1, ?_⟩
            have hoff : i + (j + 1) = i + 1 + j := by omega
            rw [hoff]
            exact hj2
        · rintro ⟨j, hj1, hj2⟩
          cases j with
          | zero =>
              have hta : a = t := by
                simpa using hj1
              subst hta
              rw [Nat.add_zero, hres] at hj2
              rcases Except.error.inj hj2 with rfl
              exact List.mem_cons_self _ _
          | succ j =>
              have hj1r : rest.get? j = some t := by simpa using hj1
              have hoff : i + (j + 1) = i + 1 + j := by omega
              rw [hoff] at hj2
              exact List.mem_cons.mpr (Or.inr ((ih (i + 1) t e).mpr ⟨j, hj1r, hj2⟩))
      · simp only [failuresFrom, hres]
        constructor
        · intro hmem
          rcases (ih (i + 1) t e).mp hmem with ⟨j, hj1, hj2⟩
          refine ⟨j + 1, hj1, ?_⟩
          have hoff : i + (j + 1) = i + 1 + j := by omega
          rw [hoff]
          exact hj2
        · rintro ⟨j, hj1, hj2⟩
          cases j with
          | zero =>
              have hta : a = t := by simpa using hj1
              subst hta
              rw [Nat.add_zero, hres] at hj2
              exact absurd hj2 (by simp)
          | succ j =>
              have hj1r : rest.get? j = some t := by simpa using hj1
              have hoff : i + (j + 1) = i + 1 + j := by omega
              rw [hoff] at hj2
              exact (ih (i + 1) t e).mpr ⟨j, hj1r, hj2⟩

/-- A predicate false on the loop-level event kinds and counted zero in
every destination attempt is counted zero over the whole loop. -/
lemma backupLoop_countP_zero (m : BackupManager) (service : ResolvedServiceConfig)
    (o : RunOracle) (p : BEvent → Bool)
    (hds : ∀ t, p (BEvent.destStart t) = false)
    (hlr : ∀ t, p (BEvent.notifyLongRunning t) = false)
    (hnf : ∀ t, p (BEvent.notifyFailure t) = false)
    (hul : ∀ t, p (BEvent.unlockRepo t) = false)
    (hdest : ∀ i t,
      (backup_to_destination m.config.global service t (o.dest i)).2.countP p = 0) :
    ∀ (ts : List String) (i : Nat) (notified : Bool)
      (errors : List (String × DestError)) (succ : Nat),
      (backupLoop m service o i ts notified errors succ).2.countP p = 0 := by
  intro ts
  induction ts with
  | nil =>
      intro i notified errors succ
      simp [backupLoop]
  | cons a rest ih =>
      intro i notified errors succ
      rcases hdst : m.config.destinations.lookup a with _ | dst
      · simp [backupLoop, hdst]
      rcases hres : (backup_to_destination m.config.global service a (o.dest i)).1
        with e | u <;>
        simp only [backupLoop, hdst, hres] <;>
        rw [List.countP_cons] <;>
        simp [List.countP_append, hds, hlr, hnf, hul, hdest, ih] <;>
        intro x _ _ _ hx <;>
        subst hx <;>
        exact hlr a

/-- The number of long-running notifications the loop fires: exactly one
when a notification manager is configured, the flag was not yet set and
some check observes an elapsed time above the threshold — zero
otherwise. -/
lemma backupLoop_countP_lr (m : BackupManager) (service : ResolvedServiceConfig)
    (o : RunOracle) :
    ∀ (ts : List String) (i : Nat) (notified : Bool)
      (errors : List (String × DestError)) (succ : Nat),
      allTargetsFound m.config ts →
      (backupLoop m service o i ts notified errors succ).2.countP isLongRunningEvent =
        if m.hasNotificationManager &&
            (!notified && anyCheckExceeds o
              (m.config.global.long_running_threshold_minutes * 60) i ts) then 1
        else 0 := by
  intro ts
  induction ts with
  | nil =>
      intro i notified errors succ _
      simp [backupLoop, anyCheckExceeds]
  | cons a rest ih =>
      intro i notified errors succ hfound
      have ha : (m.config.destinations.lookup a).isSome = true :=
        hfound a (List.mem_cons_self a rest)
      rcases Option.isSome_iff_exists.mp ha with ⟨dst, hdst⟩
      have hrest : allTargetsFound m.config rest :=
        fun x hx => hfound x (List.mem_cons_of_mem a hx)
      have hdest0 : ∀ t,
          (backup_to_destination m.config.global service t (o.dest i)).2.countP
            isLongRunningEvent = 0 :=
        fun t => dest_events_countP_zero m.config.global service t (o.dest i)
          isLongRunningEvent (fun _ => rfl) rfl rfl rfl (fun _ => rfl)
      rcases hres : (backup_to_destination m.config.global service a (o.dest i)).1
        with e | u <;>
        simp only [backupLoop, hdst, hres] <;>
        rw [List.countP_cons] <;>
        simp only [List.countP_append, hdest0, ih _ _ _ _ hrest] <;>
        cases hn : notified <;>
          cases hm : m.hasNotificationManager <;>
          cases hc : decide
            ((m.config.global.long_running_threshold_minutes * 60) < o.elapsedAtCheck i) <;>
          simp [anyCheckExceeds, hn, hm, hc, isLongRunningEvent]

/-- For a found, enabled service with a free lock and resolvable
targets, `backup_service` returns success exactly when no destination
failed, and otherwise the aggregate error carrying every failed target
with its cause. -/
lemma backup_service_result (m : BackupManager) (service_name : String) (o : RunOracle)
    (service : ResolvedServiceConfig)
    (hfind : m.resolved_services.lookup service_name = some service)
    (hen : service.enabled = true) (hlock : o.lockFree = true)
    (hfound : allTargetsFound m.config service.targets) :
    (backup_service m service_name o).1 =
      (if (failuresFrom m service o 0 service.targets).isEmpty then Except.ok ()
       else Except.error (RunError.aggregate (failuresFrom m service o 0 service.targets))) := by
  unfold backup_service
  rw [hfind]
  simp only [hen, hlock, Bool.not_true, Bool.false_eq_true, if_false]
  rw [backupLoop_result m service o service.targets 0 false [] 0 hfound]
  by_cases hF : (failuresFrom m service o 0 service.targets).isEmpty = true
  · simp [hF]
  · have hF2 : (failuresFrom m service o 0 service.targets).isEmpty = false := by
      rw [Bool.not_eq_true] at hF
      exact hF
    simp [hF2]

/-- The events of a run are the loop's events, possibly followed by one
success notification. -/
lemma backup_service_events_shape (m : BackupManager) (service_name : String)
    (o : RunOracle) (service : ResolvedServiceConfig)
    (hfind : m.resolved_services.lookup service_name = some service)
    (hen : service.enabled = true) (hlock : o.lockFree = true) :
    (backup_service m service_name o).2 =
        (backupLoop m service o 0 service.targets false [] 0).2 ∨
      (backup_service m service_name o).2 =
        (backupLoop m service o 0 service.targets false [] 0).2 ++
          [BEvent.notifySuccess] := by
  unfold backup_service
  rw [hfind]
  simp only [hen, hlock, Bool.not_true, Bool.false_eq_true, if_false]
  rcases hl : (backupLoop m service o 0 service.targets false [] 0).1 with e | pr
  · simp only [hl]
    left
    trivial
  · rcases pr with ⟨errs, succ⟩
    simp only [hl]
    by_cases hE : errs.isEmpty = true
    · simp only [hE, if_true]
      by_cases hS : (decide (0 < succ) && m.hasNotificationManager) = true
      · simp only [hS, if_true]
        right
        trivial
      · have hS2 : (decide (0 < succ) && m.hasNotificationManager) = false := by
          rw [Bool.not_eq_true] at hS
          exact hS
        simp only [hS2, Bool.false_eq_true, if_false, List.append_nil]
        left
        trivial
    · have hE2 : errs.isEmpty = false := by
        rw [Bool.not_eq_true] at hE
        exact hE
      simp only [hE2, Bool.false_eq_true, if_false]
      left
      trivial

/-! ## Claim C3 -/

/-- C3: with every target resolvable, a destination failure never skips
or aborts a later destination — every target's attempt is started — and
the run's outcome is success exactly when no destination failed,
otherwise the aggregate error listing exactly the failed destinations
in order, each with its specific cause. -/
theorem C3_destination_isolation (m : BackupManager) (service_name : String)
    (o : RunOracle) (service : ResolvedServiceConfig)
    (hfind : m.resolved_services.lookup service_name = some service)
    (hen : service.enabled = true) (hlock : o.lockFree = true)
    (hfound : allTargetsFound m.config service.targets) :
    (∀ t ∈ service.targets,
      BEvent.destStart t ∈ (backup_service m service_name o).2)
    ∧ ((backup_service m service_name o).1 =
        (if (failuresFrom m service o 0 service.targets).isEmpty then Except.ok ()
         else Except.error (RunError.aggregate (failuresFrom m service o 0 service.targets))))
    ∧ (∀ t e, (t, e) ∈ failuresFrom m service o 0 service.targets ↔
        ∃ j, service.targets.get? j = some t ∧
          (backup_to_destination m.config.global service t (o.dest j)).1 =
            Except.error e) := by
  refine ⟨?_, backup_service_result m service_name o service hfind hen hlock hfound, ?_⟩
  · intro t ht
    have hmem := destStart_mem_backupLoop m service o service.targets 0 false [] 0 hfound t ht
    rcases backup_service_events_shape m service_name o service hfind hen hlock with h | h <;>
      rw [h]
    · exact hmem
    · exact List.mem_append_left _ hmem
  · intro t e
    simpa using mem_failuresFrom m service o service.targets 0 t e

/-! Shared concrete fixtures for the coordinator claims. -/

def fxNotifications : NotificationConfig :=
  { discord_webhook_url := "https://example.invalid/hook"
    notify_on := [NotifyEvent.Failure, NotifyEvent.Warning]
    rate_limit_minutes := 60
    cache_file := "/tmp/cache.json" }

def fxDest : Destination :=
  { dest_type := DestinationType.Local, url := ['/', 'b'], description := "" }

def fxBackupConfigNoHooks : BackupConfig :=
  { paths := ["/data"]
    volumes := []
    excludes := []
    pre_backup_hooks := []
    post_backup_hooks := [] }

def fxService : ResolvedServiceConfig :=
  { name := "svc"
    enabled := true
    description := ""
    schedule := "0 2 * * *"
    targets := ["A", "B"]
    timeout_seconds := 3600
    retention := { daily := 7, weekly := 4, monthly := 6, yearly := 0 }
    notify_on := [NotifyEvent.Failure]
    config := some fxBackupConfigNoHooks }

def fxManager : BackupManager :=
  { config :=
      { global := c1Global
        destinations := [("A", fxDest), ("B", fxDest)]
        notifications := fxNotifications
        profiles := []
        services := [] }
    resolved_services := [("svc", fxService)] }

def okDestOracle : DestOracle :=
  { preHook := fun _ => true
    mkTempDir := true
    volumeExists := fun _ => some true
    archiveVolume := fun _ => true
    pathExists := fun _ => true
    initRepo := true
    transfer := true
    retention := RetentionOutcome.completedOk
    removeTempDir := true
    postHook := fun _ => true }

def failTransferOracle : DestOracle :=
  { okDestOracle with transfer := false }

def c3Run : RunOracle :=
  { lockFree := true
    dest := fun i => if i = 0 then failTransferOracle else okDestOracle
    elapsedAtCheck := fun _ => 0
    unlockOk := fun _ => true }

/-- Witness for C3: destinations [A, B] where A's transfer fails and B
succeeds — the result names exactly A with its cause while B's transfer
was still attempted. -/
theorem C3_witness :
    ((∀ t ∈ fxService.targets,
        BEvent.destStart t ∈ (backup_service fxManager "svc" c3Run).2)
      ∧ ((backup_service fxManager "svc" c3Run).1 =
          (if (failuresFrom fxManager fxService c3Run 0 fxService.targets).isEmpty then
            Except.ok ()
          else Except.error
            (RunError.aggregate (failuresFrom fxManager fxService c3Run 0 fxService.targets))))
      ∧ (∀ t e, (t, e) ∈ failuresFrom fxManager fxService c3Run 0 fxService.targets ↔
          ∃ j, fxService.targets.get? j = some t ∧
            (backup_to_destination fxManager.config.global fxService t (c3Run.dest j)).1 =
              Except.error e))
    ∧ failuresFrom fxManager fxService c3Run 0 fxService.targets =
        [("A", DestError.transferFailed)]
    ∧ (backup_service fxManager "svc" c3Run).1 =
        Except.error (RunError.aggregate [("A", DestError.transferFailed)])
    ∧ BEvent.transfer "B" ∈ (backup_service fxManager "svc" c3Run).2 :=
  ⟨C3_destination_isolation fxManager "svc" c3Run fxService rfl rfl rfl
      (by unfold allTargetsFound; decide),
    rfl, rfl, by decide⟩

/-! ## Claim C2 -/

/-- C2 (amended): pre-backup hooks run at the start of each
destination's attempt (backup.rs:197-199, inside
`backup_to_destination`), not once per run. A pre-hook failing without
continue_on_error aborts only the current destination's attempt —
before that destination's repository is initialized, transferred to or
pruned — the failure is recorded for that destination in the aggregate,
and every other destination is still attempted. -/
theorem C2_prehook_destination_scope (m : BackupManager) (service_name : String)
    (o : RunOracle) (service : ResolvedServiceConfig)
    (hfind : m.resolved_services.lookup service_name = some service)
    (hen : service.enabled = true) (hlock : o.lockFree = true)
    (hfound : allTargetsFound m.config service.targets)
    (i : Nat) (t : String) (n : String)
    (hget : service.targets.get? i = some t)
    (hfail : (run_pre_hooks service (o.dest i)).1 = Except.error n) :
    (backup_to_destination m.config.global service t (o.dest i)).1 =
        Except.error (DestError.preHookFailed n)
    ∧ (∀ ev ∈ (backup_to_destination m.config.global service t (o.dest i)).2,
        ∃ j, ev = BEvent.preHookRun t j)
    ∧ (t, DestError.preHookFailed n) ∈ failuresFrom m service o 0 service.targets
    ∧ (∀ x ∈ service.targets,
        BEvent.destStart x ∈ (backup_service m service_name o).2) := by
  have hbd := backup_to_destination_prehook_fail m.config.global service t (o.dest i) n hfail
  refine ⟨by rw [hbd], ?_, ?_, ?_⟩
  · intro ev hev
    rw [hbd] at hev
    rcases List.mem_map.mp hev with ⟨j, _, rfl⟩
    exact ⟨j, rfl⟩
  · refine (mem_failuresFrom m service o service.targets 0 t
      (DestError.preHookFailed n)).mpr ⟨i, hget, ?_⟩
    rw [Nat.zero_add, hbd]
  · intro x hx
    have hmem := destStart_mem_backupLoop m service o service.targets 0 false [] 0 hfound x hx
    rcases backup_service_events_shape m service_name o service hfind hen hlock with h | h <;>
      rw [h]
    · exact hmem
    · exact List.mem_append_left _ hmem

def fxPreHook : Hook :=
  { name := ""
    command := "prepare"
    working_dir := none
    timeout_seconds := none
    continue_on_error := false }

def fxServicePreHooked : ResolvedServiceConfig :=
  { fxService with
    config := some { fxBackupConfigNoHooks with pre_backup_hooks := [fxPreHook] } }

def fxManagerPreHooked : BackupManager :=
  { fxManager with resolved_services := [("svc", fxServicePreHooked)] }

def failPreOracle : DestOracle :=
  { okDestOracle with preHook := fun _ => false }

def c2Run : RunOracle :=
  { lockFree := true
    dest := fun i => if i = 0 then failPreOracle else okDestOracle
    elapsedAtCheck := fun _ => 0
    unlockOk := fun _ => true }

/-- C2 counterexample: the configured pre-backup hook (with
continue_on_error = false) fails during the run — at destination A's
attempt — yet destination B is still initialized and transferred to:
hooks run per destination, and a failing hook does not abort the whole
operation before any destination is touched. -/
theorem C2_counterexample :
    fxPreHook.continue_on_error = false
    ∧ (run_pre_hooks fxServicePreHooked (c2Run.dest 0)).1 = Except.error "prepare"
    ∧ (backup_service fxManagerPreHooked "svc" c2Run).1 =
        Except.error (RunError.aggregate [("A", DestError.preHookFailed "prepare")])
    ∧ BEvent.initRepo "B" ∈ (backup_service fxManagerPreHooked "svc" c2Run).2
    ∧ BEvent.transfer "B" ∈ (backup_service fxManagerPreHooked "svc" c2Run).2 :=
  ⟨rfl, rfl, rfl, by decide, by decide⟩

/-- Witness for C2's amended theorem at the concrete fixture. -/
theorem C2_witness :
    (backup_to_destination fxManagerPreHooked.config.global fxServicePreHooked "A"
        (c2Run.dest 0)).1 = Except.error (DestError.preHookFailed "prepare")
    ∧ (∀ ev ∈ (backup_to_destination fxManagerPreHooked.config.global fxServicePreHooked
        "A" (c2Run.dest 0)).2, ∃ j, ev = BEvent.preHookRun "A" j)
    ∧ ("A", DestError.preHookFailed "prepare") ∈
        failuresFrom fxManagerPreHooked fxServicePreHooked c2Run 0
          fxServicePreHooked.targets
    ∧ (∀ x ∈ fxServicePreHooked.targets,
        BEvent.destStart x ∈ (backup_service fxManagerPreHooked "svc" c2Run).2) :=
  C2_prehook_destination_scope fxManagerPreHooked "svc" c2Run fxServicePreHooked rfl rfl
    rfl (by unfold allTargetsFound; decide) 0 "A" "prepare" rfl rfl

/-! ## Claim C4 -/

lemma backup_to_destination_retention_failed (global : GlobalConfig)
    (service : ResolvedServiceConfig) (target : String) (d : DestOracle)
    (vols : List String)
    (hpre : (run_pre_hooks service d).1 = Except.ok ())
    (htmp : d.mkTempDir = true)
    (hvol : backup_volumes service d = Except.ok vols)
    (hne : (collect_paths global service d ++ vols).isEmpty = false)
    (hinit : d.initRepo = true) (htr : d.transfer = true)
    (hr : d.retention = RetentionOutcome.failed) :
    backup_to_destination global service target d =
      (Except.error DestError.retentionFailed,
        (run_pre_hooks service d).2.map (BEvent.preHookRun target) ++
          [BEvent.initRepo target, BEvent.transfer target,
            BEvent.retentionApply target]) := by
  unfold backup_to_destination
  dsimp only
  rw [hpre]
  simp only [htmp, hvol, hne, hinit, htr, Bool.not_true, Bool.false_eq_true, if_false]
  rw [hr]

/-- C4 (amended): for a destination whose transfer succeeds, a
retention-apply failure in which the `restic forget` process runs and
exits unsuccessfully is soft — only logged, the destination still
succeeds — but a retention call that fails hard (timeout or spawn
failure) makes `apply_retention` return an error that fails the
destination (backup.rs:241-242). -/
theorem C4_retention_soft_only_for_exit_failures (global : GlobalConfig)
    (service : ResolvedServiceConfig) (target : String) (d : DestOracle)
    (vols : List String)
    (hpre : (run_pre_hooks service d).1 = Except.ok ())
    (htmp : d.mkTempDir = true)
    (hvol : backup_volumes service d = Except.ok vols)
    (hne : (collect_paths global service d ++ vols).isEmpty = false)
    (hinit : d.initRepo = true) (htr : d.transfer = true)
    (hpost : (run_post_hooks service d).1 = Except.ok ()) :
    (d.retention = RetentionOutcome.completedErr →
      (backup_to_destination global service target d).1 = Except.ok ()
      ∧ BEvent.retentionApply target ∈ (backup_to_destination global service target d).2)
    ∧ (d.retention = RetentionOutcome.failed →
      (backup_to_destination global service target d).1 =
        Except.error DestError.retentionFailed) := by
  constructor
  · intro hr
    have h := backup_to_destination_reach_post global service target d vols hpre htmp hvol
      hne hinit htr (by simp [hr])
    constructor
    · rw [h]
      simp [hpost]
    · rw [h]
      simp
  · intro hr
    rw [backup_to_destination_retention_failed global service target d vols hpre htmp hvol
      hne hinit htr hr]

def retHardFailOracle : DestOracle :=
  { okDestOracle with retention := RetentionOutcome.failed }

def retSoftFailOracle : DestOracle :=
  { okDestOracle with retention := RetentionOutcome.completedErr }

def fxServiceA : ResolvedServiceConfig :=
  { fxService with targets := ["A"] }

def fxManagerA : BackupManager :=
  { fxManager with resolved_services := [("svc", fxServiceA)] }

def c4Run : RunOracle :=
  { lockFree := true
    dest := fun _ => retHardFailOracle
    elapsedAtCheck := fun _ => 0
    unlockOk := fun _ => true }

/-- C4 counterexample: the transfer succeeds but the retention call
fails hard (timeout or spawn failure): `apply_retention` returns an
error that `backup_to_destination` propagates with `?`
(backup.rs:241-242), so the destination is reported failed — the
retention-apply step is not soft in every failure mode. -/
theorem C4_counterexample :
    BEvent.transfer "A" ∈
        (backup_to_destination c1Global fxServiceA "A" retHardFailOracle).2
    ∧ (backup_to_destination c1Global fxServiceA "A" retHardFailOracle).1 =
        Except.error DestError.retentionFailed
    ∧ (backup_service fxManagerA "svc" c4Run).1 =
        Except.error (RunError.aggregate [("A", DestError.retentionFailed)]) :=
  ⟨by decide, rfl, rfl⟩

/-- Witness for C4: the same destination with the retention subprocess
completing with a non-zero exit status — soft, destination succeeds. -/
theorem C4_witness :
    ((retSoftFailOracle.retention = RetentionOutcome.completedErr →
        (backup_to_destination c1Global fxServiceA "A" retSoftFailOracle).1 = Except.ok ()
        ∧ BEvent.retentionApply "A" ∈
            (backup_to_destination c1Global fxServiceA "A" retSoftFailOracle).2)
      ∧ (retSoftFailOracle.retention = RetentionOutcome.failed →
        (backup_to_destination c1Global fxServiceA "A" retSoftFailOracle).1 =
          Except.error DestError.retentionFailed))
    ∧ (backup_to_destination c1Global fxServiceA "A" retSoftFailOracle).1 =
        Except.ok () :=
  ⟨C4_retention_soft_only_for_exit_failures c1Global fxServiceA "A" retSoftFailOracle []
      rfl rfl rfl rfl rfl rfl rfl, rfl⟩

/-! ## Claim C5 -/

/-- C5 (amended): post-backup hooks run per destination, inside
`backup_to_destination`, and only after that destination's transfer
(and a non-hard retention apply) succeeded with a non-empty backup-unit
list; a destination whose transfer subprocess fails never runs them,
and in a run where every destination's transfer fails they never run at
all. -/
theorem C5_posthooks_only_after_successful_transfer :
    (∀ (global : GlobalConfig) (service : ResolvedServiceConfig) (target : String)
      (d : DestOracle), d.transfer = false →
      (backup_to_destination global service target d).2.countP isPostHookEvent = 0)
    ∧ (∀ (global : GlobalConfig) (service : ResolvedServiceConfig) (target : String)
      (d : DestOracle) (vols : List String),
      (run_pre_hooks service d).1 = Except.ok () → d.mkTempDir = true →
      backup_volumes service d = Except.ok vols →
      (collect_paths global service d ++ vols).isEmpty = false →
      d.initRepo = true → d.transfer = true → d.retention ≠ RetentionOutcome.failed →
      (backup_to_destination global service target d).2.countP isPostHookEvent =
        (run_post_hooks service d).2.length)
    ∧ (∀ (m : BackupManager) (service_name : String) (o : RunOracle)
      (service : ResolvedServiceConfig),
      m.resolved_services.lookup service_name = some service →
      service.enabled = true → o.lockFree = true →
      (∀ i, (o.dest i).transfer = false) →
      (backup_service m service_name o).2.countP isPostHookEvent = 0) := by
  refine ⟨?_, ?_, ?_⟩
  · intro global service target d htr
    exact dest_events_no_post_of_transfer_false global service target d htr
  · intro global service target d vols hpre htmp hvol hne hinit htr hret
    rw [backup_to_destination_reach_post global service target d vols hpre htmp hvol hne
      hinit htr hret]
    simp [List.countP_append, List.countP_cons, isPostHookEvent,
      countP_map_eq_zero (BEvent.preHookRun target) isPostHookEvent (fun _ => rfl),
      countP_map_eq_length (BEvent.postHookRun target) isPostHookEvent (fun _ => rfl)]
  · intro m service_name o service hfind hen hlock htr
    have hzero := backupLoop_countP_zero m service o isPostHookEvent
      (fun _ => rfl) (fun _ => rfl) (fun _ => rfl) (fun _ => rfl)
      (fun i t => dest_events_no_post_of_transfer_false m.config.global service t
        (o.dest i) (htr i))
      service.targets 0 false [] 0
    rcases backup_service_events_shape m service_name o service hfind hen hlock with h | h <;>
      rw [h]
    · exact hzero
    · simp [List.countP_append, hzero, isPostHookEvent]

def fxPostHook : Hook :=
  { name := "cleanup"
    command := "cleanup.sh"
    working_dir := none
    timeout_seconds := none
    continue_on_error := false }

def fxServicePostHooked : ResolvedServiceConfig :=
  { fxService with
    targets := ["A"]
    config := some { fxBackupConfigNoHooks with post_backup_hooks := [fxPostHook] } }

def fxManagerPostHooked : BackupManager :=
  { fxManager with resolved_services := [("svc", fxServicePostHooked)] }

def c5Run : RunOracle :=
  { lockFree := true
    dest := fun _ => failTransferOracle
    elapsedAtCheck := fun _ => 0
    unlockOk := fun _ => true }

/-- C5 counterexample: a service with one configured post-backup hook
whose only destination's transfer fails: the destination was attempted,
yet no post-backup hook ever ran — the run_post_hooks call sits after
the transfer inside `backup_to_destination` (backup.rs:249-251), so it
is skipped when the transfer fails (and once per destination
otherwise), not run once after all destinations regardless of outcome. -/
theorem C5_counterexample :
    (postHooks fxServicePostHooked).length = 1
    ∧ (backup_service fxManagerPostHooked "svc" c5Run).1 =
        Except.error (RunError.aggregate [("A", DestError.transferFailed)])
    ∧ (backup_service fxManagerPostHooked "svc" c5Run).2.countP isPostHookEvent = 0 :=
  ⟨rfl, rfl, rfl⟩

/-- Witness for C5: the transfer fails at the single destination — no
post hook runs; with the transfer succeeding they do run. -/
theorem C5_witness :
    ((backup_to_destination c1Global fxServicePostHooked "A" failTransferOracle).2.countP
        isPostHookEvent = 0)
    ∧ (backup_service fxManagerPostHooked "svc" c5Run).2.countP isPostHookEvent = 0
    ∧ ((backup_to_destination c1Global fxServicePostHooked "A" okDestOracle).2.countP
        isPostHookEvent = (run_post_hooks fxServicePostHooked okDestOracle).2.length) :=
  ⟨C5_posthooks_only_after_successful_transfer.1 c1Global fxServicePostHooked "A"
      failTransferOracle rfl,
    C5_posthooks_only_after_successful_transfer.2.2 fxManagerPostHooked "svc" c5Run
      fxServicePostHooked rfl rfl rfl (fun _ => rfl),
    C5_posthooks_only_after_successful_transfer.2.1 c1Global fxServicePostHooked "A"
      okDestOracle [] rfl rfl rfl rfl rfl rfl (by decide)⟩

/-! ## Claim C7 -/

/-- C7: within one run, at most one long-running notification fires,
and — with a notification manager configured — exactly one fires when
some destination check observes an elapsed time above the resolved
threshold: never one per destination, never more than one in total. -/
theorem C7_long_running_fires_once (m : BackupManager) (service_name : String)
    (o : RunOracle) (service : ResolvedServiceConfig)
    (hfind : m.resolved_services.lookup service_name = some service)
    (hen : service.enabled = true) (hlock : o.lockFree = true)
    (hfound : allTargetsFound m.config service.targets)
    (hmgr : m.hasNotificationManager = true) :
    (backup_service m service_name o).2.countP isLongRunningEvent ≤ 1
    ∧ (anyCheckExceeds o (m.config.global.long_running_threshold_minutes * 60) 0
        service.targets = true →
      (backup_service m service_name o).2.countP isLongRunningEvent = 1) := by
  have hcount := backupLoop_countP_lr m service o service.targets 0 false [] 0 hfound
  have hev : (backup_service m service_name o).2.countP isLongRunningEvent =
      (backupLoop m service o 0 service.targets false [] 0).2.countP isLongRunningEvent := by
    rcases backup_service_events_shape m service_name o service hfind hen hlock with h | h <;>
      rw [h] <;>
      simp [List.countP_append, isLongRunningEvent]
  rw [hev, hcount, hmgr]
  cases hany : anyCheckExceeds o (m.config.global.long_running_threshold_minutes * 60) 0
      service.targets <;>
    simp [hany]

def c7Run : RunOracle :=
  { lockFree := true
    dest := fun _ => okDestOracle
    elapsedAtCheck := fun i => if i = 0 then 0 else 7201
    unlockOk := fun _ => true }

/-- Witness for C7: threshold 120 minutes (7200s); the check before the
second destination observes 7201s — exactly one long-running
notification in the whole run. -/
theorem C7_witness :
    ((backup_service fxManager "svc" c7Run).2.countP isLongRunningEvent ≤ 1
      ∧ (anyCheckExceeds c7Run
          (fxManager.config.global.long_running_threshold_minutes * 60) 0
          fxService.targets = true →
        (backup_service fxManager "svc" c7Run).2.countP isLongRunningEvent = 1))
    ∧ anyCheckExceeds c7Run (fxManager.config.global.long_running_threshold_minutes * 60)
        0 fxService.targets = true
    ∧ (backup_service fxManager "svc" c7Run).2.countP isLongRunningEvent = 1 :=
  ⟨C7_long_running_fires_once fxManager "svc" c7Run fxService rfl rfl rfl
      (by unfold allTargetsFound; decide) rfl,
    rfl, rfl⟩

end Backup

end ResticManager
